import Mathlib

/-!
Verification of the frontier scheduler and worker pipeline of
`crawl.py` (MobileGameClassification).

The scheduler (`scheduler` in crawl.py) keeps a visited set and a FIFO
pending queue, dispatches unvisited heads to a bounded work queue,
drains a discovery queue back into the pending queue, and checkpoints
`[list(visited), queue]` to a JSON file.  The worker (`crawl` together
with `PackageInfoWriter.process_dic`) validates a parsed record's
category against an allow-list, buffers an output row, and publishes
discovered package names.

The embedding below models the scheduler round as a pure step function
parameterised by the environment: `cap` is the number of non-blocking
puts the work queue accepts before raising `Full` during the dispatch
pass, and `arrivals` is the sequence of packages the discovery queue
yields before `Empty`/timeout during the drain pass.
-/

namespace Crawl

/-- The category allow-list `CATEGORIES` of crawl.py. -/
def CATEGORIES : List String :=
  ["Action", "Adventure", "Arcade", "Board", "Card",
   "Casino", "Casual", "Educational", "Music", "Puzzle",
   "Racing", "Role_Playing", "Simulation", "Sports",
   "Strategy", "Trivia", "Word"]

/-- The bootstrap seed set `START_PACKAGES` of crawl.py. -/
def START_PACKAGES : List String :=
  ["com.orangeapps.piratetreasure",
   "se.hellothere.gravityhd",
   "com.makingfun.mageandminions",
   "com.gameloft.android.ANMP.Gloft5DHM",
   "com.Zeeppo.GuitarBand"]

/-- `HEADERS['full']` of crawl.py: the fixed output-row schema. -/
def HEADERS_full : List String :=
  ["Category", "Package", "Name", "Updated", "Size",
   "Installs", "Requires_Android", "Age", "Developer", "Rating",
   "Rating_Total", "Rating_5", "Rating_4", "Rating_3", "Rating_2",
   "Rating_1", "Price", "Description",
   "Content_Feature", "Permission", "Inapp_Products", "Version"]

/-- `HEADERS['trivial']` of crawl.py: fields replaced by a sentinel when absent. -/
def HEADERS_trivial : List String := ["Inapp_Products", "Permission"]

/-- The scheduler's state at a round boundary: `visited`, `queue`,
the dispatch counter `count`, and the idle flag `stop_flag`. -/
structure SchedState where
  visited : Finset String
  queue : List String
  count : Nat
  stopFlag : Bool
deriving DecidableEq

/-- The fresh-start state of `scheduler` (no prior checkpoint):
empty visited set, queue seeded with `START_PACKAGES`, counter 0,
`stop_flag = False`. -/
def initState : SchedState :=
  { visited := ∅, queue := START_PACKAGES, count := 0, stopFlag := false }

/-- The dispatch pass (crawl.py lines 249-257): while the queue is
non-empty, pop a visited head without dispatching, or dispatch an
unvisited head (put on Q1, mark visited, bump the counter, pop).
`cap` is the number of puts Q1 accepts before raising `Full`; the
first `Full` breaks the pass, leaving the head in place. -/
def dispatchPass : Finset String → List String → Nat → Nat →
    Finset String × List String × Nat
  | v, [], c, _ => (v, [], c)
  | v, h :: t, c, cap =>
    if h ∈ v then dispatchPass v t c cap
    else
      match cap with
      | 0 => (v, h :: t, c)
      | cap' + 1 => dispatchPass (insert h v) t (c + 1) cap'

/-- The drain pass (crawl.py lines 263-273): each package obtained from
Q2 is appended to the queue only if it is in neither the visited set
nor the queue and the queue is shorter than 100000; otherwise it is
dropped.  `arrivals` is the sequence of successful `Q2.get` results
before `Empty`/timeout. -/
def drainLoop (v : Finset String) : List String → List String → List String
  | q, [] => q
  | q, p :: rest =>
    if p ∉ v ∧ p ∉ q ∧ q.length < 100000 then drainLoop v (q ++ [p]) rest
    else drainLoop v q rest

/-- Observable outcome of one scheduler round: the next state, whether
the outer loop exited (`terminated`), whether the periodic checkpoint
fired (`saved`), and whether a blocking 30-second `Q2.get` timed out
during the drain (`blockedTimeout`). -/
structure RoundOut where
  state : SchedState
  terminated : Bool
  saved : Bool
  blockedTimeout : Bool
deriving DecidableEq

/-- One round of the `while True` loop of `scheduler` (crawl.py lines
248-280): dispatch pass; on a cleanly emptied queue either break (if
`stop_flag` was already set) or set `stop_flag`; drain pass (a
successful get clears `stop_flag`); periodic checkpoint when
`count % 100 == 0`, resetting the counter to 1. -/
def roundStep (s : SchedState) (cap : Nat) (arrivals : List String) : RoundOut :=
  let d := dispatchPass s.visited s.queue s.count cap
  let v := d.1
  let q := d.2.1
  let c := d.2.2
  if q.isEmpty && s.stopFlag then
    { state := { visited := v, queue := q, count := c, stopFlag := s.stopFlag },
      terminated := true, saved := false, blockedTimeout := false }
  else
    let flag1 := if q.isEmpty then true else s.stopFlag
    let q2 := drainLoop v q arrivals
    let flag2 := if arrivals.isEmpty then flag1 else false
    let didSave := c % 100 == 0
    { state := { visited := v, queue := q2,
                 count := if didSave then 1 else c, stopFlag := flag2 },
      terminated := false, saved := didSave,
      blockedTimeout := flag1 && arrivals.isEmpty }

/-- One scheduler round relates a state to the next round-boundary state,
for some environment behaviour (Q1 capacity, Q2 arrivals). -/
def SchedStep (a b : SchedState) : Prop :=
  ∃ cap arrivals, (roundStep a cap arrivals).state = b

/-- States of the scheduler loop observable at round boundaries,
starting from the fresh-start state. -/
def Reachable (s : SchedState) : Prop :=
  Relation.ReflTransGen SchedStep initState s

/-- `json.dump([list(visited), queue], fout)` (crawl.py lines 279-283):
the checkpoint document is one JSON list holding the visited set as an
unordered list and the pending queue as an ordered list.  The JSON
layer round-trips lists of strings structurally, so the document is
modelled as the pair of string lists it serialises.  `list(visited)`
enumerates the set in an arbitrary order; the model enumerates it in
lexicographic order. -/
def saveCheckpoint (visited : Finset String) (queue : List String) :
    List (List String) :=
  [visited.sort (· ≤ ·), queue]

/-- `visited, queue = json.load(fin); visited = set(visited)`
(crawl.py lines 238-240): destructure the two-element document,
rebuild the visited set, keep the queue as an ordered list. -/
def loadCheckpoint (doc : List (List String)) :
    Option (Finset String × List String) :=
  match doc with
  | [vl, q] => some (vl.toFinset, q)
  | _ => none

/-- Externally visible persistence events of a scheduler run. -/
inductive SchedEvent
  | save (visited : Finset String) (queue : List String)
deriving DecidableEq

/-- How a scheduler run left its `try` block: the loop's own `break`
(normal), an external interrupt, or an error raised inside the loop. -/
inductive ExitKind
  | normal
  | interrupt
  | error
deriving DecidableEq

/-- The body of `scheduler`'s `try` block (crawl.py lines 247-280), at
round granularity.  Each environment entry drives one round:
`some (cap, arrivals)` runs the round normally, `none` raises an
unhandled error inside it; an exhausted environment models an external
interrupt.  Returns the periodic checkpoint events, the state at exit,
and the exit kind. -/
def runRounds : SchedState → List (Option (Nat × List String)) →
    List SchedEvent × SchedState × ExitKind
  | s, [] => ([], s, ExitKind.interrupt)
  | s, none :: _ => ([], s, ExitKind.error)
  | s, some (cap, arr) :: rest =>
    let r := roundStep s cap arr
    if r.terminated then ([], r.state, ExitKind.normal)
    else
      let evs := if r.saved then [SchedEvent.save r.state.visited r.state.queue]
                 else []
      let rec' := runRounds r.state rest
      (evs ++ rec'.1, rec'.2)

/-- `scheduler` with its `try ... finally` (crawl.py lines 237-283):
whatever way the body exits, the `finally` clause appends one more
checkpoint write of the exit-time state. -/
def schedulerRun (s0 : SchedState) (env : List (Option (Nat × List String))) :
    List SchedEvent × ExitKind :=
  ((runRounds s0 env).1 ++
      [SchedEvent.save (runRounds s0 env).2.1.visited (runRounds s0 env).2.1.queue],
    (runRounds s0 env).2.2)

/-! ### The worker side: record dicts, `PackageInfoWriter`, and the
per-package body of `crawl`. -/

/-- A parsed record: a Python dict of string keys and values, modelled
as an insertion-ordered association list with unique keys. -/
abbrev RecordDict := List (String × String)

/-- `dic.get(k, dflt)`. -/
def dget (d : RecordDict) (k dflt : String) : String :=
  match d.find? (fun p => p.1 == k) with
  | some p => p.2
  | none => dflt

/-- `k in dic`. -/
def dmem (d : RecordDict) (k : String) : Bool :=
  d.any (fun p => p.1 == k)

/-- `dic[k] = val`: update in place if the key exists (keeping
insertion order), otherwise append the new binding. -/
def dset (d : RecordDict) (k val : String) : RecordDict :=
  if dmem d k then d.map (fun p => if p.1 == k then (p.1, val) else p)
  else d ++ [(k, val)]

/-- `s.replace(' ', '_')` applied to the category value. -/
def normalizeCat (s : String) : String :=
  String.mk (s.data.map (fun c => if c = ' ' then '_' else c))

/-- `s.replace('\n', ' ')` applied to each projected field. -/
def stripNewlines (s : String) : String :=
  String.mk (s.data.map (fun c => if c = '\n' then ' ' else c))

/-- `vectorize_dic` (crawl.py lines 197-201): mutate the dict in place —
give the two trivial fields the sentinel `'???'` when absent and set
`dic['Package']` — then project it onto `HEADERS['full']`, replacing
newlines by spaces.  Returns the mutated dict together with the row. -/
def vectorize_dic (dic : RecordDict) (package : String) :
    RecordDict × List String :=
  let d1 := HEADERS_trivial.foldl (fun d k => dset d k (dget d k "???")) dic
  let d2 := dset d1 "Package" package
  (d2, HEADERS_full.map (fun k => stripNewlines (dget d2 k "")))

/-- State of one worker's `PackageInfoWriter`: the row buffer, the
accepted-row counter, and the rows already flushed to the csv file. -/
structure WriterState where
  buffer : List (List String)
  count : Nat
  sink : List (List String)
deriving DecidableEq

/-- `PackageInfoWriter.write` (crawl.py lines 172-181): append the
buffered rows to the csv file and clear the buffer. -/
def pwrite (w : WriterState) : WriterState :=
  { buffer := [], count := w.count, sink := w.sink ++ w.buffer }

/-- `PackageInfoWriter.process_dic` (crawl.py lines 183-213): vectorize
the dict (mutating it), reject when `len(dic) < 10` or, in strict
mode, when the row has an empty field; otherwise buffer the row, bump
the counter, and flush every `period` rows.  Returns the new writer
state and the boolean result. -/
def process_dic (strict : Bool) (period : Nat) (w : WriterState)
    (dic : RecordDict) (package : String) : WriterState × Bool :=
  let d := (vectorize_dic dic package).1
  let vec := (vectorize_dic dic package).2
  if d.length < 10 || (strict && vec.contains "") then (w, false)
  else
    let w1 : WriterState :=
      { buffer := w.buffer ++ [vec], count := w.count + 1, sink := w.sink }
    if w1.count % period == 0 then (pwrite w1, true) else (w1, true)

/-- The category gate of `crawl` (crawl.py line 318):
`'Category' in dic and dic['Category'].replace(' ', '_') in CATEGORIES`. -/
def categoryOk (dic : RecordDict) : Bool :=
  dmem dic "Category" && CATEGORIES.contains (normalizeCat (dget dic "Category" ""))

/-- The per-package body of the worker loop `crawl` (crawl.py lines
316-326): if the category gate passes, normalise the category, run the
writer, and publish every discovered package on Q2; otherwise do
nothing at all.  `discovered` is what `explore_packages` returned for
this document; the second component is the list of packages put on the
discovery queue. -/
def workerStep (strict : Bool) (period : Nat) (w : WriterState)
    (dic : RecordDict) (package : String) (discovered : List String) :
    WriterState × List String :=
  if categoryOk dic then
    let d := dset dic "Category" (normalizeCat (dget dic "Category" ""))
    ((process_dic strict period w d package).1, discovered)
  else (w, [])

/-! ### Invariant lemmas for the scheduler loop -/

/-- Pending-queue invariant: no duplicates, and disjoint from the
visited set. -/
def InvP (v : Finset String) (q : List String) : Prop :=
  q.Nodup ∧ ∀ x ∈ q, x ∉ v

lemma dispatchPass_inv (q : List String) : ∀ (v : Finset String) (c cap : Nat),
    InvP v q → InvP (dispatchPass v q c cap).1 (dispatchPass v q c cap).2.1 := by
  induction q with
  | nil => intro v c cap _; simp [dispatchPass, InvP]
  | cons h t ih =>
    intro v c cap hinv
    obtain ⟨hnd, hdisj⟩ := hinv
    have hhv : h ∉ v := hdisj h (List.mem_cons_self h t)
    rw [List.nodup_cons] at hnd
    simp only [dispatchPass, if_neg hhv]
    cases cap with
    | zero =>
      exact ⟨List.nodup_cons.mpr hnd, hdisj⟩
    | succ k =>
      refine ih (insert h v) (c + 1) k ⟨hnd.2, fun x hx => ?_⟩
      simp only [Finset.mem_insert, not_or]
      exact ⟨fun he => hnd.1 (he ▸ hx), hdisj x (List.mem_cons_of_mem h hx)⟩

lemma dispatchPass_length (q : List String) : ∀ (v : Finset String) (c cap : Nat),
    (dispatchPass v q c cap).2.1.length ≤ q.length := by
  induction q with
  | nil => intro v c cap; simp [dispatchPass]
  | cons h t ih =>
    intro v c cap
    by_cases hhv : h ∈ v
    · simp only [dispatchPass, if_pos hhv]
      exact le_trans (ih v c cap) (Nat.le_succ _)
    · simp only [dispatchPass, if_neg hhv]
      cases cap with
      | zero => exact le_refl _
      | succ k => exact le_trans (ih (insert h v) (c + 1) k) (Nat.le_succ _)

lemma drainLoop_inv (arr : List String) : ∀ (q : List String) (v : Finset String),
    InvP v q → InvP v (drainLoop v q arr) := by
  induction arr with
  | nil => intro q v hinv; simpa [drainLoop] using hinv
  | cons p rest ih =>
    intro q v hinv
    rw [drainLoop]
    split
    · next hcond =>
      refine ih (q ++ [p]) v ⟨?_, ?_⟩
      · simp only [List.nodup_append, List.nodup_cons, List.nodup_nil]
        exact ⟨hinv.1, by simp, by simpa using fun hx => hcond.2.1 hx⟩
      · intro x hx
        rcases List.mem_append.mp hx with hx' | hx'
        · exact hinv.2 x hx'
        · simp only [List.mem_singleton] at hx'
          exact hx' ▸ hcond.1
    · exact ih q v hinv

lemma drainLoop_length (arr : List String) : ∀ (q : List String) (v : Finset String),
    q.length ≤ 100000 → (drainLoop v q arr).length ≤ 100000 := by
  induction arr with
  | nil => intro q v hq; simpa [drainLoop] using hq
  | cons p rest ih =>
    intro q v hq
    rw [drainLoop]
    split
    · next hcond =>
      refine ih (q ++ [p]) v ?_
      have h1 : q.length < 100000 := hcond.2.2
      simp only [List.length_append, List.length_singleton]
      omega
    · exact ih q v hq

lemma roundStep_inv (s : SchedState) (cap : Nat) (arr : List String)
    (hinv : InvP s.visited s.queue) :
    InvP (roundStep s cap arr).state.visited (roundStep s cap arr).state.queue := by
  have hd := dispatchPass_inv s.queue s.visited s.count cap hinv
  rw [roundStep]
  split
  · exact hd
  · exact drainLoop_inv arr _ _ hd

lemma roundStep_length (s : SchedState) (cap : Nat) (arr : List String)
    (hlen : s.queue.length ≤ 100000) :
    (roundStep s cap arr).state.queue.length ≤ 100000 := by
  have hd := le_trans (dispatchPass_length s.queue s.visited s.count cap) hlen
  rw [roundStep]
  split
  · exact hd
  · exact drainLoop_length arr _ _ hd

lemma reachable_invP (s : SchedState) (h : Reachable s) :
    InvP s.visited s.queue := by
  induction h with
  | refl =>
    refine ⟨?_, by simp [initState]⟩
    show START_PACKAGES.Nodup
    decide
  | tail _ hstep ih =>
    obtain ⟨cap, arr, rfl⟩ := hstep
    exact roundStep_inv _ cap arr ih

/-! ### Claim theorems: scheduler -/

/-- C1: for every reachable state of the scheduler loop (observed at
round boundaries), the visited set and the pending queue are disjoint
and the pending queue contains no duplicate identifier. -/
theorem reachable_disjoint_nodup (s : SchedState) (h : Reachable s) :
    (∀ x ∈ s.queue, x ∉ s.visited) ∧ s.queue.Nodup :=
  ⟨(reachable_invP s h).2, (reachable_invP s h).1⟩

/-- Witness for C1: the invariant instantiated at the fresh-start
state, a concretely reachable state. -/
theorem reachable_disjoint_nodup_witness :
    (∀ x ∈ initState.queue, x ∉ initState.visited) ∧ initState.queue.Nodup :=
  reachable_disjoint_nodup initState Relation.ReflTransGen.refl

/-- C5: when the work queue is at capacity (it accepts no put, `cap = 0`)
and the head of a non-empty frontier is unvisited, the dispatch pass
ends immediately with the head still in front, the visited set and
dispatch counter unchanged. -/
theorem queue_full_leaves_head (v : Finset String) (h : String)
    (t : List String) (c : Nat) (hh : h ∉ v) :
    dispatchPass v (h :: t) c 0 = (v, h :: t, c) := by
  simp [dispatchPass, if_neg hh]

/-- Witness for C5: a full work queue leaves the concrete frontier
["a", "b"] and counter 3 untouched. -/
theorem queue_full_leaves_head_witness :
    ("a" : String) ∉ (∅ : Finset String) ∧
      dispatchPass ∅ ["a", "b"] 3 0 = (∅, ["a", "b"], 3) :=
  ⟨by simp, queue_full_leaves_head ∅ "a" ["b"] 3 (by simp)⟩

/-- C7: a drained discovery arriving while the frontier already holds
100000 identifiers is silently dropped (the frontier is returned
unchanged, no error), and every reachable scheduler state keeps the
frontier at or below the 100000 bound. -/
theorem frontier_capacity_bound :
    (∀ (v : Finset String) (q : List String) (p : String),
        q.length = 100000 → drainLoop v q [p] = q) ∧
    (∀ s : SchedState, Reachable s → s.queue.length ≤ 100000) := by
  constructor
  · intro v q p hq
    rw [drainLoop]
    rw [if_neg (by simp [hq])]
    rw [drainLoop]
  · intro s h
    induction h with
    | refl => decide
    | tail _ hstep ih =>
      obtain ⟨cap, arr, rfl⟩ := hstep
      exact roundStep_length _ cap arr ih

/-- Witness for C7: a discovery is dropped at a concrete frontier of
length exactly 100000, and the fresh-start state respects the bound. -/
theorem frontier_capacity_bound_witness :
    drainLoop ∅ (List.replicate 100000 "a") ["b"] = List.replicate 100000 "a" ∧
      initState.queue.length ≤ 100000 :=
  ⟨frontier_capacity_bound.1 ∅ (List.replicate 100000 "a") "b"
      (List.length_replicate 100000 "a"),
    frontier_capacity_bound.2 initState Relation.ReflTransGen.refl⟩

/-- C8: from a round whose frontier is empty with the idle flag still
clear, and with no discovery ever arriving, the first round performs
exactly one blocking drain read that times out, and the following
round exits the loop (`TERMINATED`). -/
theorem empty_frontier_terminates (v : Finset String) (c cap cap' : Nat) :
    (roundStep ⟨v, [], c, false⟩ cap []).terminated = false ∧
    (roundStep ⟨v, [], c, false⟩ cap []).blockedTimeout = true ∧
    (roundStep (roundStep ⟨v, [], c, false⟩ cap []).state cap' []).terminated
      = true := by
  simp [roundStep, dispatchPass, drainLoop]

/-! ### Claim theorems: checkpointing -/

/-- 96 fresh identifiers delivered by the discovery queue in one drain
pass. -/
def d96 : List String := (List.range 96).map (fun n => "d" ++ toString n)

/-- C2 counterexample: an execution from the fresh start in which the
five seeds are dispatched in round one (5 dispatches, no save since
5 % 100 ≠ 0) and 96 drained discoveries are dispatched in round two
(101 dispatches in total, no save since 101 % 100 ≠ 0).  The dispatch
counter passes 100 without any persist, because the `count % 100`
check runs only at round boundaries — so it is not the case that
every 100 successful dispatches are followed by a persist. -/
theorem checkpoint_period_cex :
    initState.count = 0 ∧
    (roundStep initState 5 d96).saved = false ∧
    (roundStep initState 5 d96).state.count = 5 ∧
    (roundStep (roundStep initState 5 d96).state 96 []).saved = false ∧
    (roundStep (roundStep initState 5 d96).state 96 []).state.count = 101 := by
  set_option maxRecDepth 100000 in decide

/-- C2 amended: a persist happens at the end of exactly those
non-terminating rounds where the post-dispatch counter is divisible by
100; the counter is inspected only at round boundaries (and resets to
1 on a save), so rounds that advance it past a multiple of 100 persist
nothing. -/
theorem checkpoint_save_iff (s : SchedState) (cap : Nat) (arr : List String) :
    (roundStep s cap arr).saved =
      (!(roundStep s cap arr).terminated &&
        ((dispatchPass s.visited s.queue s.count cap).2.2 % 100 == 0)) := by
  simp only [roundStep]
  split <;> simp

/-- C6: whatever way the scheduler loop exits — its own `break`
(normal termination), an external interrupt, or an error raised inside
a round — the event trace ends with one final persist of the exit-time
visited set and pending queue, via the `finally` clause. -/
theorem final_persist_on_exit (s0 : SchedState)
    (env : List (Option (Nat × List String))) :
    (schedulerRun s0 env).1.getLast? =
      some (SchedEvent.save (runRounds s0 env).2.1.visited
        (runRounds s0 env).2.1.queue) := by
  simp [schedulerRun]

/-- C9: saving a checkpoint (visited set as an unordered list, pending
queue as an ordered list, in one document) and immediately loading it
returns exactly the same visited set and the same pending sequence. -/
theorem checkpoint_roundtrip (V : Finset String) (F : List String) :
    loadCheckpoint (saveCheckpoint V F) = some (V, F) := by
  simp [saveCheckpoint, loadCheckpoint, Finset.sort_toFinset]

/-! ### Claim theorems: worker validation and output -/

lemma process_dic_false_fst (strict : Bool) (period : Nat) (w : WriterState)
    (dic : RecordDict) (package : String)
    (h : (process_dic strict period w dic package).2 = false) :
    (process_dic strict period w dic package).1 = w := by
  simp only [process_dic] at h ⊢
  split
  · rfl
  · next hc =>
    rw [if_neg hc] at h
    split at h <;> simp_all

/-- C4: a dispatched record whose category is absent or whose
normalised category is outside the allow-list is skipped entirely:
the writer state (buffer and output sink) is untouched and nothing is
published to the discovery queue. -/
theorem category_reject_skips_all (strict : Bool) (period : Nat)
    (w : WriterState) (dic : RecordDict) (pkg : String) (disc : List String)
    (hcat : categoryOk dic = false) :
    workerStep strict period w dic pkg disc = (w, []) := by
  simp only [workerStep, hcat, Bool.false_eq_true, if_false]

/-- Witness for C4: a concrete record with no category field is skipped
with nothing published. -/
theorem category_reject_skips_all_witness :
    categoryOk [("Name", "some game")] = false ∧
      workerStep true 5 ⟨[], 0, []⟩ [("Name", "some game")] "pkg.a" ["z1", "z2"]
        = (⟨[], 0, []⟩, []) :=
  ⟨by decide,
    category_reject_skips_all true 5 ⟨[], 0, []⟩ [("Name", "some game")]
      "pkg.a" ["z1", "z2"] (by decide)⟩

/-- C3 counterexample: a record whose category is absent fails
validation, yet the worker publishes none of the identifiers
discovered from that document — the discovery publication sits inside
the category test, so the claim that discoveries are still published
is false for the category branch of validation. -/
theorem validation_discovery_cex :
    categoryOk [("Name", "x")] = false ∧
      (workerStep false 5 ⟨[], 0, []⟩ [("Name", "x")] "p" ["q1"]).2 = [] := by
  decide

/-- C3 amended: only for records that pass the category gate but are
then dropped by the writer (strict-mode missing required field, or the
small-dict check) is the row dropped while every discovered identifier
is still published; when the category is absent or not in the
allow-list, nothing is published at all. -/
theorem writer_reject_still_publishes (strict : Bool) (period : Nat)
    (w : WriterState) (dic : RecordDict) (pkg : String) (disc : List String)
    (hcat : categoryOk dic = true)
    (hrej : (process_dic strict period w
        (dset dic "Category" (normalizeCat (dget dic "Category" ""))) pkg).2
      = false) :
    workerStep strict period w dic pkg disc = (w, disc) := by
  simp only [workerStep, hcat, if_true]
  rw [process_dic_false_fst _ _ _ _ _ hrej]

/-- Witness for C3's amended claim: a record whose category passes the
allow-list but whose augmented dict is too small is dropped by the
writer, yet both discovered identifiers are published. -/
theorem writer_reject_still_publishes_witness :
    categoryOk [("Category", "Action")] = true ∧
      (process_dic false 5 ⟨[], 0, []⟩
          (dset [("Category", "Action")] "Category"
            (normalizeCat (dget [("Category", "Action")] "Category" ""))) "p").2
        = false ∧
      workerStep false 5 ⟨[], 0, []⟩ [("Category", "Action")] "p" ["x", "y"]
        = (⟨[], 0, []⟩, ["x", "y"]) :=
  ⟨by decide, by decide,
    writer_reject_still_publishes false 5 ⟨[], 0, []⟩ [("Category", "Action")]
      "p" ["x", "y"] (by decide) (by decide)⟩

/-- A concrete parsed record with nine entries, none of which is
`Package` or one of the two trivial fields. -/
def dic9 : RecordDict :=
  [("Category", "Action"), ("Name", "n"), ("Updated", "u"), ("Size", "s"),
   ("Installs", "i"), ("Age", "a"), ("Developer", "d"), ("Rating", "r"),
   ("Description", "e")]

/-- C10 counterexample: a record dict with nine entries at call time is
accepted by `process_dic` in non-strict mode — the row is buffered and
the call returns True — because the `len(dic) < 10` test runs after
`vectorize_dic` has mutated the dict, adding `Package` and the two
`'???'` trivial fields (length 12 at test time). -/
theorem small_dict_cex :
    dic9.length = 9 ∧
      (vectorize_dic dic9 "p").1.length = 12 ∧
      (process_dic false 5 ⟨[], 0, []⟩ dic9 "p").2 = true ∧
      (process_dic false 5 ⟨[], 0, []⟩ dic9 "p").1.buffer.length = 1 := by
  decide

/-- C10 amended: the size rejection applies to the augmented dict —
whenever the dict has fewer than 10 entries after `vectorize_dic` adds
`Package` and the `'???'` placeholders, no row is buffered and the
call returns False, strict mode or not. -/
theorem augmented_small_dict_rejected (strict : Bool) (period : Nat)
    (w : WriterState) (dic : RecordDict) (pkg : String)
    (hlen : (vectorize_dic dic pkg).1.length < 10) :
    process_dic strict period w dic pkg = (w, false) := by
  unfold process_dic
  rw [if_pos (by simp [hlen])]

/-- Witness for C10's amended claim: the empty record dict augments to
three entries and is rejected with the writer state untouched. -/
theorem augmented_small_dict_rejected_witness :
    (vectorize_dic [] "p").1.length < 10 ∧
      process_dic true 5 ⟨[], 0, []⟩ [] "p" = (⟨[], 0, []⟩, false) :=
  ⟨by decide, augmented_small_dict_rejected true 5 ⟨[], 0, []⟩ [] "p" (by decide)⟩

end Crawl
